import Mathlib

/-!
Verification of the onvif-cam-rs client against its specification.

The repository's code is shallowly embedded: the XML stream that the
`xml-rs` pull parser feeds to `parse_soap` becomes a `List XmlEvent`;
network receive/send outcomes become explicit outcome sequences; Rust
panics and `?`-propagated errors become `Except` values.  Rust `String`
is Lean `String`; `url::Url` (an external crate) is abstracted as a
`String` together with a caller-supplied parser `String → Option String`.
-/

deriving instance DecidableEq for Except

namespace OnvifCam

/-! ## XML events (the `xml::reader::XmlEvent` cases `parse_soap` inspects)

`startElement` carries the element's local name and its attribute list as
already-displayed `(name, value)` string pairs (for `xml-rs`, the displayed
attribute name is `prefix:local` when a prefix is present).  `parseError`
stands for an `Err(e)` item of the pull-parser iterator; `other` for every
event kind the `_ => {}` arm of the source ignores. -/
inductive XmlEvent where
  | startElement (localName : String) (attributes : List (String × String))
  | endElement (localName : String)
  | characters (chars : String)
  | parseError
  | other
deriving DecidableEq

/-- Rust `Debug` escaping of one character inside a `String`, as used by
`format!("{:?}", value)` in `parse_soap`'s attribute arm.  Quote, backslash,
newline, tab and carriage return get a backslash escape; other characters
print as themselves (Rust's `\u` escapes for further control characters are
not modelled; attribute values of SOAP replies do not contain them). -/
def rustDebugChar (c : Char) : String :=
  if c = '"' then "\\\""
  else if c = '\\' then "\\\\"
  else if c = '\n' then "\\n"
  else if c = '\t' then "\\t"
  else if c = '\r' then "\\r"
  else String.mk [c]

/-- Rust `format!("{:?}", s)` for a string `s`: the escaped text between
double quotes. -/
def rustDebug (s : String) : String :=
  "\"" ++ String.join (s.data.map rustDebugChar) ++ "\""

/-- `format!("{}={:?}", &a.name, a.value)` for one attribute. -/
def formatAttr (a : String × String) : String :=
  a.1 ++ "=" ++ rustDebug a.2

/-- The event loop of `parse_soap` (src/utils/mod.rs lines 23-74), with the
loop's mutable state as arguments: `element_found`, `parent_found` and the
accumulated `result` (in push order = document order). -/
def parse_soap_go (element_to_find : String) (parent : Option String)
    (is_single is_attributes : Bool) :
    List XmlEvent → Bool → Bool → List String → List String
  | [], _, _, result => result
  | .startElement element attributes :: rest, element_found, parent_found, result =>
    -- `if !parent_found && element == parent.unwrap()`; the `none` arm is
    -- unreachable from `parse_soap`, whose parent_found starts true when
    -- parent is None, so the guard short-circuits before the unwrap
    let hit_parent := match parent with
      | some p => element == p
      | none => false
    let parent_found := if !parent_found && hit_parent then true else parent_found
    let element_found := if parent_found && element == element_to_find then true else element_found
    if element_found && !attributes.isEmpty && is_attributes then
      attributes.map formatAttr
    else
      parse_soap_go element_to_find parent is_single is_attributes rest
        element_found parent_found result
  | .endElement element :: rest, element_found, parent_found, result =>
    let element_found := if element_found && element == element_to_find then false else element_found
    parse_soap_go element_to_find parent is_single is_attributes rest
      element_found parent_found result
  | .characters chars :: rest, element_found, parent_found, result =>
    if !is_attributes && element_found then
      if is_single then result ++ [chars]   -- push, then `break`
      else
        parse_soap_go element_to_find parent is_single is_attributes rest
          element_found parent_found (result ++ [chars])
    else
      parse_soap_go element_to_find parent is_single is_attributes rest
        element_found parent_found result
  | .parseError :: _, _, _, result => result   -- `Err(e) => { eprintln!; break }`
  | .other :: rest, element_found, parent_found, result =>
    parse_soap_go element_to_find parent is_single is_attributes rest
      element_found parent_found result

/-- `parse_soap` (src/utils/mod.rs): `parent_found` starts false exactly when
a parent scope is supplied; `element_found` starts false; `result` empty. -/
def parse_soap (response : List XmlEvent) (element_to_find : String)
    (parent : Option String) (is_single is_attributes : Bool) : List String :=
  parse_soap_go element_to_find parent is_single is_attributes response
    false parent.isNone []

/-! ## Rust string primitives used by the client

`str::contains`, `str::split`, `str::lines` and `u32::from_str` are modelled
over the character data of a `String`. -/

/-- Rust `haystack.contains(needle)`: the needle's characters occur as a
contiguous run of the haystack's. -/
def rustContains (haystack needle : String) : Bool :=
  decide (needle.data <:+: haystack.data)

/-- Splitting a character list at every occurrence of `sep`, keeping empty
pieces — the behavior of Rust `str::split(char)`. -/
def splitOnChar (sep : Char) : List Char → List (List Char)
  | [] => [[]]
  | c :: rest =>
    if c = sep then [] :: splitOnChar sep rest
    else
      match splitOnChar sep rest with
      | [] => [[c]]
      | piece :: pieces => (c :: piece) :: pieces

/-- Rust `s.split(sep)` collected to strings. -/
def rustSplit (s : String) (sep : Char) : List String :=
  (splitOnChar sep s.data).map String.mk

/-- Rust `str::lines`: split on `'\n'`, drop the final empty piece produced
by a trailing newline, and strip one trailing `'\r'` from each line. -/
def rustLines (s : String) : List String :=
  let parts := splitOnChar '\n' s.data
  let parts := if parts.getLast? = some [] then parts.dropLast else parts
  parts.map fun l => String.mk (if l.getLast? = some '\r' then l.dropLast else l)

/-- Decimal digit accumulation: `none` as soon as a non-digit appears. -/
def parseDigits : List Char → Nat → Option Nat
  | [], acc => some acc
  | c :: rest, acc =>
    if '0' ≤ c ∧ c ≤ '9' then parseDigits rest (acc * 10 + (c.toNat - 48))
    else none

/-- Rust `s.parse::<u32>()`: an optional leading `'+'`, then one or more
decimal digits, value within `u32` range; `none` models the `Err` case. -/
def rust_parse_u32 (s : String) : Option Nat :=
  let ds := match s.data with
    | '+' :: rest => rest
    | l => l
  match ds with
  | [] => none
  | _ =>
    match parseDigits ds 0 with
    | some n => if n < 4294967296 then some n else none
    | none => none

/-! ## Discovery engine (src/client/mod.rs `discover`)

The network is abstracted as the sequence of outcomes of the ten bounded
receive operations the call performs (2 broadcast rounds × 5 receive
attempts; the loop never exits early, so exactly ten receives happen).
A successful receive yields the sender's socket address (as the string
`addr.to_string()` produces) and the reply buffer as parsed XML events.
The `url::Url` crate is abstracted as a parser `String → Option String`;
Rust panics and `?`-propagation become `Except` errors. -/

inductive DeviceTypes where
  | camera
  | doorbell
  | unknown
deriving DecidableEq

/-- `parse_device_type` (src/device/mod.rs lines 163-169). -/
def parse_device_type (dev_type : String) : DeviceTypes :=
  if rustContains dev_type "NetworkVideoTransmitter" then .camera
  else if rustContains dev_type "Doorbell" then .doorbell
  else .unknown

/-- `Device` (src/device/mod.rs lines 10-14); `url::Url` modelled as the
string it serializes to. -/
structure Device where
  url_onvif : String
  device_type : DeviceTypes
  scopes : List String
deriving DecidableEq

/-- One reply datagram: sender address and parsed buffer. -/
structure Reply where
  addr : String
  events : List XmlEvent
deriving DecidableEq

/-- Outcome of one `timeout(2000ms, recv_buf_from)` receive attempt:
elapsed timeout, a receive error (`Err(e)` logged and skipped), or a reply. -/
inductive RecvOutcome where
  | timeout
  | recvError
  | reply (r : Reply)
deriving DecidableEq

/-- The sender address of a reply outcome, if any. -/
def recvAddr : RecvOutcome → Option String
  | .reply r => some r.addr
  | _ => none

/-- How a `discover` call can fail: `noDevicesFound` models the final
`panic!("… Unable to find any devices.")`, `indexPanic` the `xaddrs[0]` /
`remove(0)` / `scopes[0]` panics on an empty extraction, `urlParseError`
the `?` on `xaddrs[0].parse()`. -/
inductive DiscoverError where
  | noDevicesFound
  | indexPanic
  | urlParseError
deriving DecidableEq

/-- The two accumulators of the receive loops. -/
structure DiscoverState where
  devices_found : List Device
  devices_check : String
deriving DecidableEq

/-- Processing of one receive outcome (src/client/mod.rs lines 100-143):
dedup by `devices_check.contains(addr.to_string())`, record the address,
then build a `Device` from the buffer's `XAddrs`, `Types` and `Scopes`. -/
def discover_step (parseUrl : String → Option String) (st : DiscoverState)
    (o : RecvOutcome) : Except DiscoverError DiscoverState :=
  match o with
  | .timeout => .ok st
  | .recvError => .ok st
  | .reply r =>
    if rustContains st.devices_check r.addr then .ok st
    else
      let devices_check := st.devices_check ++ ":" ++ r.addr
      match parse_soap r.events "XAddrs" none true false with
      | [] => .error .indexPanic                    -- xaddrs[0]
      | x :: _ =>
        match parseUrl x with
        | none => .error .urlParseError             -- xaddrs[0].parse()?
        | some url_onvif =>
          match parse_soap r.events "Types" none true false with
          | [] => .error .indexPanic                -- device_type.remove(0)
          | t :: _ =>
            match parse_soap r.events "Scopes" none true false with
            | [] => .error .indexPanic              -- scopes[0]
            | sc :: _ =>
              .ok { devices_found := st.devices_found ++
                      [{ url_onvif := url_onvif,
                         device_type := parse_device_type t,
                         scopes := rustSplit sc ' ' }],
                    devices_check := devices_check }

/-- The receive loops, folded over a list of receive outcomes. -/
def run_recvs (parseUrl : String → Option String) :
    List RecvOutcome → DiscoverState → Except DiscoverError DiscoverState
  | [], st => .ok st
  | o :: rest, st =>
    match discover_step parseUrl st o with
    | .error e => .error e
    | .ok st' => run_recvs parseUrl rest st'

/-- `discover` (src/client/mod.rs lines 58-152): run the ten receive
attempts from the empty state, then fail with `noDevicesFound` when nothing
was collected.  UDP socket binding and the two probe broadcasts are
abstracted as succeeding. -/
def discover (parseUrl : String → Option String) (outcomes : Nat → RecvOutcome) :
    Except DiscoverError (List Device) :=
  match run_recvs parseUrl ((List.range 10).map outcomes) ⟨[], ""⟩ with
  | .error e => .error e
  | .ok st =>
    if st.devices_found.isEmpty then .error .noDevicesFound
    else .ok st.devices_found

/-! ## SOAP transport (src/client/mod.rs `send`)

Each loop turn that reaches the request issues one HTTP POST; the outcome
of attempt `i` (1-based) is supplied as `attempts i`: the 1-second timeout
elapsed, the request completed with a response, or it completed with a
transport error (DNS/connect failure), which `resp?` propagates at once. -/

inductive AttemptOutcome where
  | timeout
  | success (response : String)
  | failure (e : String)
deriving DecidableEq

inductive SendError where
  | http (e : String)   -- `resp?` propagated a reqwest error
  | exhausted           -- the `anyhow!("[Client] Error getting response …")`
deriving DecidableEq

/-- The `'read` loop of `send` (src/client/mod.rs lines 183-205).
`try_times` is the counter before its `+= 1`; the second component counts
HTTP requests actually issued.  The loop tests `try_times == 5` right after
incrementing and before sending; the structural `fuel` only bounds the
recursion and starts high enough (5) that its base case is unreachable. -/
def send_go (attempts : Nat → AttemptOutcome) :
    Nat → Nat → Nat → Except SendError String × Nat
  | 0, _, sent => (.error .exhausted, sent)
  | fuel + 1, try_times, sent =>
    let t := try_times + 1
    if t == 5 then (.error .exhausted, sent)   -- `break 'read` before sending
    else
      match attempts t with
      | .timeout => send_go attempts fuel t (sent + 1)
      | .success r => (.ok r, sent + 1)
      | .failure e => (.error (.http e), sent + 1)

/-- `send` (src/client/mod.rs lines 174-208): result and number of HTTP
requests issued. -/
def send (attempts : Nat → AttemptOutcome) : Except SendError String × Nat :=
  send_go attempts 5 0 0

/-! ## Device capability records (src/device/mod.rs) -/

structure Capabilities where
  url_media : Option String
  url_events : Option String
  url_analytics : Option String
  url_ptz : Option String
  url_imaging : Option String
deriving DecidableEq

def Capabilities.default : Capabilities :=
  ⟨none, none, none, none, none⟩

structure DeviceInfo where
  firmware_version : Option String
  serial_num : Option String
  hardware_id : Option String
  model : Option String
  manufacturer : Option String
deriving DecidableEq

def DeviceInfo.default : DeviceInfo :=
  ⟨none, none, none, none, none⟩

structure Profiles where
  name : Option String
  video_dim : Option (Nat × Nat)
  video_codec : Option String
  audio_codec : Option String
  h264_profile : Option String
deriving DecidableEq

def Profiles.default : Profiles :=
  ⟨none, none, none, none, none⟩

structure StreamUri where
  uri : Option String
  timeout : Option String
  invalid_connect : Option String
deriving DecidableEq

def StreamUri.default : StreamUri :=
  ⟨none, none, none⟩

structure Services where
  analytics : Option String
  event : Option String
  io : Option String
  imaging : Option String
  media : Option String
  media2 : Option String
  ptz : Option String
deriving DecidableEq

def Services.default : Services :=
  ⟨none, none, none, none, none, none, none⟩

/-! ## Capability builder pipeline (src/builder/camera.rs)

Each stage is modelled as a function of the already-received response body
(parsed to XML events); the transport round-trip is assumed to have
succeeded, which is the case the pipeline claims are about.  Panics
(`remove(0)` / indexing on an empty extraction, `unwrap` on a failed parse)
and `?`-propagation become `Except` errors.  The `info!` logging calls,
which also index into the extractions, only run when a logger admits that
level and are not modelled. -/

inductive BuildError where
  | indexPanic      -- remove(0) / [0] on an empty extraction
  | parsePanic      -- .parse().unwrap() failed
  | urlParseError   -- .parse()? on a service URL failed
  | unwrapPanic     -- services.event.as_ref().unwrap() on None
deriving DecidableEq

/-- `v.remove(0)` / `v[0]`: the first element, or a panic on empty. -/
def first_or_panic (l : List String) : Except BuildError String :=
  match l with
  | [] => .error .indexPanic
  | x :: _ => .ok x

/-- `s.parse::<u32>().unwrap()`. -/
def parse_u32_or_panic (s : String) : Except BuildError Nat :=
  match rust_parse_u32 s with
  | some n => .ok n
  | none => .error .parsePanic

/-- `xaddr.parse::<url::Url>()?` under the abstracted URL parser. -/
def parse_url_opt (parseUrl : String → Option String) (s : String) :
    Except BuildError String :=
  match parseUrl s with
  | some u => .ok u
  | none => .error .urlParseError

/-- `set_capabilities` (src/builder/camera.rs lines 12-35). -/
def set_capabilities (parseUrl : String → Option String)
    (response : List XmlEvent) : Except BuildError Capabilities := do
  let media_service := parse_soap response "XAddr" (some "Media") true false
  let event_service := parse_soap response "XAddr" (some "Events") true false
  let analytics_service := parse_soap response "XAddr" (some "Analytics") true false
  let ptz_service := parse_soap response "XAddr" (some "PTZ") true false
  let image_service := parse_soap response "XAddr" (some "Imaging") true false
  let url_media ← parse_url_opt parseUrl (← first_or_panic media_service)
  let url_events ← parse_url_opt parseUrl (← first_or_panic event_service)
  let url_analytics ← parse_url_opt parseUrl (← first_or_panic analytics_service)
  let url_ptz ← parse_url_opt parseUrl (← first_or_panic ptz_service)
  let url_imaging ← parse_url_opt parseUrl (← first_or_panic image_service)
  return { url_media := some url_media, url_events := some url_events,
           url_analytics := some url_analytics, url_ptz := some url_ptz,
           url_imaging := some url_imaging }

/-- `set_device_info` (src/builder/camera.rs lines 38-58). -/
def set_device_info (response : List XmlEvent) : Except BuildError DeviceInfo := do
  let firmware_version := parse_soap response "FirmwareVersion" none true false
  let serial_number := parse_soap response "SerialNumber" none true false
  let hardware_id := parse_soap response "HardwareId" none true false
  let model := parse_soap response "Model" none true false
  let manufacturer := parse_soap response "Manufacturer" none true false
  let fw ← first_or_panic firmware_version
  let sn ← first_or_panic serial_number
  let hw ← first_or_panic hardware_id
  let md ← first_or_panic model
  let mf ← first_or_panic manufacturer
  return { firmware_version := some fw, serial_num := some sn,
           hardware_id := some hw, model := some md, manufacturer := some mf }

/-- `set_profiles` (src/builder/camera.rs lines 61-86).  The assignments run
in source order: `video_dim` first (`width[0].parse().unwrap()`, then
`height[0].parse().unwrap()`), then `audio_codec.remove(0)`,
`h264_profile.remove(0)`, `video_codec.remove(0)`. -/
def set_profiles (response : List XmlEvent) : Except BuildError Profiles := do
  let width := parse_soap response "Width" none true false
  let height := parse_soap response "Height" none true false
  let video_codec := parse_soap response "Encoding" (some "VideoEncoderConfiguration") true false
  let audio_codec := parse_soap response "Encoding" (some "AudioEncoderConfiguration") true false
  let h264_profile := parse_soap response "H264Profile" none true false
  let w ← parse_u32_or_panic (← first_or_panic width)
  let h ← parse_u32_or_panic (← first_or_panic height)
  let ac ← first_or_panic audio_codec
  let hp ← first_or_panic h264_profile
  let vc ← first_or_panic video_codec
  return { name := none, video_dim := some (w, h), video_codec := some vc,
           audio_codec := some ac, h264_profile := some hp }

/-- `set_stream_uri` (src/builder/camera.rs lines 89-104). -/
def set_stream_uri (response : List XmlEvent) : Except BuildError StreamUri := do
  let invalid_after_connect := parse_soap response "InvalidAfterConnect" none true false
  let timeout := parse_soap response "Timeout" none true false
  let url_string := parse_soap response "Uri" none true false
  let ic ← first_or_panic invalid_after_connect
  let u ← first_or_panic url_string
  let t ← first_or_panic timeout
  return { uri := some u, timeout := some t, invalid_connect := some ic }

/-- The XAddr classification loop of `set_services` (src/builder/camera.rs
lines 113-128): match arms tried top to bottom, a `device_service` URL is
skipped, an unmatched URL only logs an error. -/
def classify_service (result : Services) (service : String) : Services :=
  if rustContains service "device_service" then result
  else if rustContains service "analytics" then { result with analytics := some service }
  else if rustContains service "event" then { result with event := some service }
  else if rustContains service "deviceIO" then { result with io := some service }
  else if rustContains service "imaging" then { result with imaging := some service }
  else if rustContains service "media_service" then { result with media := some service }
  else if rustContains service "media2" then { result with media2 := some service }
  else if rustContains service "ptz" then { result with ptz := some service }
  else result

/-- `set_services` (src/builder/camera.rs lines 107-131): extract every
`XAddr` text (all-matching mode) and classify each in order. -/
def set_services (response : List XmlEvent) : Services :=
  (parse_soap response "XAddr" none false false).foldl classify_service
    Services.default

structure EventCapabilities where
  pause_support : Option Bool
  pull_point_supoort : Option Bool
  sub_policy_support : Option Bool
  max_notif_produce : Option Nat
  max_pull_points : Option Nat
  persist_notif_store : Option Bool
deriving DecidableEq

def EventCapabilities.default : EventCapabilities :=
  ⟨none, none, none, none, none, none⟩

/-- `Camera` (src/device/camera.rs lines 8-18); the analytics sub-records,
untouched by `build_all`, are omitted. -/
structure Camera where
  base : Device
  capabilities : Capabilities
  profiles : Profiles
  device_info : DeviceInfo
  stream : StreamUri
  services : Services
  event_props : EventCapabilities
deriving DecidableEq

/-- `Camera::new` (src/device/camera.rs lines 78-90). -/
def Camera.new (base : Device) : Camera :=
  { base := base, capabilities := Capabilities.default,
    profiles := Profiles.default, device_info := DeviceInfo.default,
    stream := StreamUri.default, services := Services.default,
    event_props := EventCapabilities.default }

/-- The stages `build_all` can enter, in its fixed order. -/
inductive Stage where
  | capabilities
  | deviceInfo
  | profiles
  | streamUri
  | services
  | pullMessages
deriving DecidableEq

/-- The response bodies of the pipeline's round-trips, one per stage. -/
structure CameraResponses where
  capabilities : List XmlEvent
  device_info : List XmlEvent
  profiles : List XmlEvent
  stream : List XmlEvent
  services : List XmlEvent
deriving DecidableEq

/-- `build_all` (src/device/camera.rs lines 23-73), instrumented with the
list of stages entered.  Every stage's `?` makes its failure abort the
whole chain; after `set_services` the source unwraps
`self.services.event.as_ref()` (a panic when absent), parses it as a URL
(`?`) and issues `pull_messages`, whose body always returns `Ok(())` once
its transport round-trip (assumed successful here) completes. -/
def build_all (parseUrl : String → Option String) (resp : CameraResponses)
    (c : Camera) : List Stage × Except BuildError Camera :=
  let trace := [Stage.capabilities]
  match set_capabilities parseUrl resp.capabilities with
  | .error e => (trace, .error e)
  | .ok caps =>
    let c := { c with capabilities := caps }
    let trace := trace ++ [Stage.deviceInfo]
    match set_device_info resp.device_info with
    | .error e => (trace, .error e)
    | .ok di =>
      let c := { c with device_info := di }
      let trace := trace ++ [Stage.profiles]
      match set_profiles resp.profiles with
      | .error e => (trace, .error e)
      | .ok pr =>
        let c := { c with profiles := pr }
        let trace := trace ++ [Stage.streamUri]
        match set_stream_uri resp.stream with
        | .error e => (trace, .error e)
        | .ok su =>
          let c := { c with stream := su }
          let trace := trace ++ [Stage.services]
          let svc := set_services resp.services
          let c := { c with services := svc }
          match svc.event with
          | none => (trace, .error .unwrapPanic)    -- .as_ref().unwrap()
          | some url =>
            match parseUrl url with
            | none => (trace, .error .urlParseError) -- url::Url::parse(&url)?
            | some _ =>
              (trace ++ [Stage.pullMessages], .ok c)

/-! ## Device registry (src/client.rs `file_save` / `file_load`)

The on-disk file is modelled as its contents string; the filesystem is
abstracted as succeeding (`File::create` / `File::open` errors are out of
scope of the round-trip claim). -/

/-- `Device` of the registry revision (src/device.rs lines 3-26). -/
structure ClientDevice where
  url_onvif : String
  url_rtsp : Option String
  invalid_after_connect : Option String
  timeout : Option String
  video_codec : Option String
  audio_codec : Option String
  video_dim : Option (Nat × Nat)
  h264_profile : Option String
  manufacturer : Option String
  model : Option String
  firmware_version : Option String
  serial_number : Option String
  hardware_id : Option String
  service_media : Option String
  service_event : Option String
  service_analytics : Option String
  service_ptz : Option String
  service_image : Option String
deriving DecidableEq

/-- `Device::new` (src/device.rs lines 29-52). -/
def ClientDevice.new : ClientDevice :=
  { url_onvif := "http://127.0.0.1", url_rtsp := none,
    invalid_after_connect := none, timeout := none, video_codec := none,
    audio_codec := none, video_dim := none, h264_profile := none,
    manufacturer := none, model := none, firmware_version := none,
    serial_number := none, hardware_id := none, service_media := none,
    service_event := none, service_analytics := none, service_ptz := none,
    service_image := none }

/-- One line of the registry file:
`format!("IP: {} ONVIF: {}", url_rtsp, device.url_onvif)`. -/
def device_line (d : ClientDevice) : String :=
  let url_rtsp := match d.url_rtsp with
    | some url => url
    | none => ""
  "IP: " ++ url_rtsp ++ " ONVIF: " ++ d.url_onvif

/-- `file_save` (src/client.rs lines 402-435): refuse an empty device list,
else produce the file contents, one line plus newline per device
(`contents = format!("\x7bcontents\x7d\x7bdevice_line\x7d\n")`). -/
def file_save (devices : List ClientDevice) : Except Unit String :=
  if devices.length == 0 then .error ()
  else .ok (devices.foldl (fun contents d => contents ++ device_line d ++ "\n") "")

inductive LoadError where
  | emptyFile     -- file found but zero bytes
  | noIpMarker    -- no "IP" substring
  | linePanic     -- vals[0] / vals[1] indexing or an .expect parse failure
  | noDevices     -- parsed to an empty list
deriving DecidableEq

/-- One line's parse in `file_load` (src/client.rs lines 457-485): split on
`' '`, keep the odd-indexed tokens, then `vals[0]` decides `url_rtsp`
(empty ⇒ absent, else `.parse().expect(…)`) and `vals[1]` gives
`url_onvif`. -/
def load_line (parseUrl : String → Option String) (line : String) :
    Except LoadError ClientDevice := do
  let vals := ((rustSplit line ' ').enum.filter fun p => p.1 % 2 == 1).map Prod.snd
  let v0 ← match vals.get? 0 with
    | some v => Except.ok v
    | none => Except.error .linePanic
  let url_rtsp ← if v0.data.isEmpty then pure none
    else match parseUrl v0 with
      | some u => pure (some u)
      | none => Except.error .linePanic
  let v1 ← match vals.get? 1 with
    | some v => Except.ok v
    | none => Except.error .linePanic
  let url_onvif ← match parseUrl v1 with
    | some u => Except.ok u
    | none => Except.error .linePanic
  return { ClientDevice.new with url_rtsp := url_rtsp, url_onvif := url_onvif }

/-- The `.lines().map(…).collect()` of `file_load`: each line parsed in
order, the first panic aborting the whole collection. -/
def load_lines (parseUrl : String → Option String) :
    List String → Except LoadError (List ClientDevice)
  | [] => .ok []
  | line :: rest =>
    match load_line parseUrl line with
    | .error e => .error e
    | .ok d =>
      match load_lines parseUrl rest with
      | .error e => .error e
      | .ok ds => .ok (d :: ds)

/-- `file_load` (src/client.rs lines 437-494) over the file's contents. -/
def file_load (parseUrl : String → Option String) (contents : String) :
    Except LoadError (List ClientDevice) :=
  if contents.length == 0 then .error .emptyFile
  else if !(rustContains contents "IP") then .error .noIpMarker
  else
    match load_lines parseUrl (rustLines contents) with
    | .error e => .error e
    | .ok devices =>
      if devices.length == 0 then .error .noDevices
      else .ok devices

/-! ## Lemmas about the extractor's scan state -/

/-- An event that, with respect to the local name `name`, neither opens an
element called `name` nor aborts the scan. -/
def inertEvent (name : String) : XmlEvent → Bool
  | .startElement e _ => !(e == name)
  | .parseError => false
  | _ => true

/-- With the parent already found (or absent), a run of events that never
opens the target and never errors leaves the scan state untouched. -/
theorem go_skip_inert (t : String) (parent : Option String) (s a : Bool)
    (pre : List XmlEvent) (h : ∀ ev ∈ pre, inertEvent t ev = true)
    (rest : List XmlEvent) (acc : List String) :
    parse_soap_go t parent s a (pre ++ rest) false true acc =
    parse_soap_go t parent s a rest false true acc := by
  induction pre with
  | nil => rfl
  | cons ev pre ih =>
    have hev := h ev (by simp)
    have hpre : ∀ e ∈ pre, inertEvent t e = true := fun e he => h e (by simp [he])
    cases ev with
    | startElement e attrs =>
      have he : (e == t) = false := by simpa [inertEvent] using hev
      simp [parse_soap_go, he, ih hpre]
    | endElement e => simp [parse_soap_go, ih hpre]
    | characters c => simp [parse_soap_go, ih hpre]
    | parseError => simp [inertEvent] at hev
    | other => simp [parse_soap_go, ih hpre]

/-- Before the parent has been found, a run of events that never opens the
parent and never errors leaves the scan state untouched. -/
theorem go_skip_before_parent (t p : String) (s a : Bool)
    (pre : List XmlEvent) (h : ∀ ev ∈ pre, inertEvent p ev = true)
    (rest : List XmlEvent) (acc : List String) :
    parse_soap_go t (some p) s a (pre ++ rest) false false acc =
    parse_soap_go t (some p) s a rest false false acc := by
  induction pre with
  | nil => rfl
  | cons ev pre ih =>
    have hev := h ev (by simp)
    have hpre : ∀ e ∈ pre, inertEvent p e = true := fun e he => h e (by simp [he])
    cases ev with
    | startElement e attrs =>
      have he : (e == p) = false := by simpa [inertEvent] using hev
      simp [parse_soap_go, he, ih hpre]
    | endElement e => simp [parse_soap_go, ih hpre]
    | characters c => simp [parse_soap_go, ih hpre]
    | parseError => simp [inertEvent] at hev
    | other => simp [parse_soap_go, ih hpre]

/-- Once `parent_found` is true it can never fall back to false, so the
supplied parent name no longer influences the scan. -/
theorem go_parent_irrelevant (t : String) (parent : Option String) (s a : Bool)
    (events : List XmlEvent) : ∀ ef acc,
    parse_soap_go t parent s a events ef true acc =
    parse_soap_go t none s a events ef true acc := by
  induction events with
  | nil => intro ef acc; rfl
  | cons ev rest ih =>
    intro ef acc
    cases ev with
    | startElement e attrs => simp [parse_soap_go, ih]
    | endElement e => simp [parse_soap_go, ih]
    | characters c => simp [parse_soap_go, ih]
    | parseError => rfl
    | other => simp [parse_soap_go, ih]

/-- One in-scope occurrence of the target element holding exactly one text
chunk: start tag, characters, end tag. -/
def targetBlock (t s : String) : List XmlEvent :=
  [.startElement t [], .characters s, .endElement t]

/-- A well-formed document shape for counting occurrences: each part is an
inert separator run followed by one target occurrence with its text, and an
inert tail closes the document. -/
def interleaved (t : String) :
    List (List XmlEvent × String) → List XmlEvent → List XmlEvent
  | [], tail => tail
  | (sep, s) :: rest, tail => sep ++ (targetBlock t s ++ interleaved t rest tail)

theorem go_interleaved_all (t : String) (parts : List (List XmlEvent × String))
    (tail : List XmlEvent)
    (h : ∀ p ∈ parts, ∀ ev ∈ p.1, inertEvent t ev = true) :
    ∀ acc, parse_soap_go t none false false (interleaved t parts tail) false true acc =
    parse_soap_go t none false false tail false true (acc ++ parts.map Prod.snd) := by
  induction parts with
  | nil => intro acc; simp [interleaved]
  | cons p rest ih =>
    intro acc
    obtain ⟨sep, s⟩ := p
    have hsep : ∀ ev ∈ sep, inertEvent t ev = true := fun ev hev =>
      h (sep, s) (by simp) ev hev
    have hrest : ∀ q ∈ rest, ∀ ev ∈ q.1, inertEvent t ev = true := fun q hq =>
      h q (by simp [hq])
    rw [interleaved, go_skip_inert t none false false sep hsep]
    simp only [targetBlock, List.cons_append, List.nil_append, parse_soap_go]
    simp [ih hrest]

theorem interleaved_all_text (t : String) (parts : List (List XmlEvent × String))
    (tail : List XmlEvent)
    (hparts : ∀ p ∈ parts, ∀ ev ∈ p.1, inertEvent t ev = true)
    (htail : ∀ ev ∈ tail, inertEvent t ev = true) :
    parse_soap (interleaved t parts tail) t none false false =
      parts.map Prod.snd := by
  unfold parse_soap
  simp only [Option.isNone_none]
  rw [go_interleaved_all t parts tail hparts []]
  have := go_skip_inert t none false false tail htail [] (parts.map Prod.snd)
  simpa using this

theorem interleaved_single_text (t : String) (parts : List (List XmlEvent × String))
    (tail : List XmlEvent)
    (hparts : ∀ p ∈ parts, ∀ ev ∈ p.1, inertEvent t ev = true)
    (htail : ∀ ev ∈ tail, inertEvent t ev = true) :
    parse_soap (interleaved t parts tail) t none true false =
      (parts.map Prod.snd).take 1 := by
  unfold parse_soap
  simp only [Option.isNone_none]
  cases parts with
  | nil =>
    have := go_skip_inert t none true false tail htail [] []
    simpa [interleaved] using this
  | cons p rest =>
    obtain ⟨sep, s⟩ := p
    have hsep : ∀ ev ∈ sep, inertEvent t ev = true := fun ev hev =>
      hparts (sep, s) (by simp) ev hev
    rw [interleaved, go_skip_inert t none true false sep hsep]
    simp [targetBlock, parse_soap_go]

/-- C1 (amended): for a well-formed document whose in-scope target
occurrences each hold exactly one text chunk — separators and tail free of
further target start-tags and parse errors — all-matching mode returns
exactly the N occurrence texts in document order, and first-text-only mode
returns exactly the first of them (nothing when N = 0). -/
theorem parse_soap_mode_counts (t : String) (parts : List (List XmlEvent × String))
    (tail : List XmlEvent)
    (hparts : ∀ p ∈ parts, ∀ ev ∈ p.1, inertEvent t ev = true)
    (htail : ∀ ev ∈ tail, inertEvent t ev = true) :
    parse_soap (interleaved t parts tail) t none false false =
      parts.map Prod.snd ∧
    parse_soap (interleaved t parts tail) t none true false =
      (parts.map Prod.snd).take 1 :=
  ⟨interleaved_all_text t parts tail hparts htail,
   interleaved_single_text t parts tail hparts htail⟩

/-- Witness for C1's theorem: a two-occurrence document inside an envelope,
with noise characters between the occurrences. -/
theorem parse_soap_mode_counts_witness :
    parse_soap (interleaved "b" [([.startElement "Envelope" []], "x"),
        ([.characters "noise"], "y")] [.endElement "Envelope"]) "b" none false false =
      ["x", "y"] ∧
    parse_soap (interleaved "b" [([.startElement "Envelope" []], "x"),
        ([.characters "noise"], "y")] [.endElement "Envelope"]) "b" none true false =
      ["x"] :=
  parse_soap_mode_counts "b"
    [([.startElement "Envelope" []], "x"), ([.characters "noise"], "y")]
    [.endElement "Envelope"] (by decide) (by decide)

/-- Counterexample to C1 as stated: a well-formed document with two
occurrences of the target `t`, the first holding no text; all-matching mode
returns one value, not two, and first-text-only mode returns the second
occurrence's text. -/
theorem parse_soap_mode_counts_cex :
    parse_soap [.startElement "a" [], .startElement "t" [], .endElement "t",
        .startElement "t" [], .characters "x", .endElement "t",
        .endElement "a"] "t" none false false = ["x"] ∧
    parse_soap [.startElement "a" [], .startElement "t" [], .endElement "t",
        .startElement "t" [], .characters "x", .endElement "t",
        .endElement "a"] "t" none true false = ["x"] :=
  ⟨rfl, rfl⟩

/-- C8: with a parent scope supplied, no event before the first start-tag of
the parent is matched (the prefix is required only to be free of such
start-tags and of parse errors), and from that start-tag on the scan behaves
exactly as a scan with no parent scope at all — the scope is never
re-closed, even after the parent element ends. -/
theorem parse_soap_sticky_parent_scope (t p : String)
    (attrs : List (String × String)) (pre suffix : List XmlEvent) (s a : Bool)
    (h : ∀ ev ∈ pre, inertEvent p ev = true) :
    parse_soap (pre ++ .startElement p attrs :: suffix) t (some p) s a =
    parse_soap (.startElement p attrs :: suffix) t none s a := by
  unfold parse_soap
  simp only [Option.isNone_none, Option.isNone_some]
  rw [go_skip_before_parent t p s a pre h]
  simp only [parse_soap_go]
  simp [go_parent_irrelevant t (some p) s a suffix]

/-- Witness for C8's theorem: a target occurrence before the parent start is
skipped; one after the parent element has closed is still matched. -/
theorem parse_soap_sticky_parent_scope_witness :
    parse_soap [.startElement "t" [], .characters "early", .endElement "t",
        .startElement "par" [], .endElement "par",
        .startElement "t" [], .characters "late", .endElement "t"]
      "t" (some "par") false false =
    parse_soap [.startElement "par" [], .endElement "par",
        .startElement "t" [], .characters "late", .endElement "t"]
      "t" none false false :=
  parse_soap_sticky_parent_scope "t" "par" []
    [.startElement "t" [], .characters "early", .endElement "t"]
    [.endElement "par", .startElement "t" [], .characters "late", .endElement "t"]
    false false (by decide)

/-- C9 (amended): in attribute-extraction mode, when the first matched
target element itself carries at least one attribute, the call returns that
element's attributes as `name=value` strings — the value in Rust `Debug`
quotes — one string per attribute in attribute order, and ignores the whole
remainder of the document. -/
theorem parse_soap_attributes_mode (t : String) (a0 : String × String)
    (attrs : List (String × String)) (pre rest : List XmlEvent) (s : Bool)
    (h : ∀ ev ∈ pre, inertEvent t ev = true) :
    parse_soap (pre ++ .startElement t (a0 :: attrs) :: rest) t none s true =
      (a0 :: attrs).map formatAttr := by
  unfold parse_soap
  simp only [Option.isNone_none]
  rw [go_skip_inert t none s true pre h]
  simp [parse_soap_go]

/-- Witness for C9's theorem: two attributes on the matched target; later
elements and text are ignored. -/
theorem parse_soap_attributes_mode_witness :
    parse_soap [.characters "lead-in", .startElement "Capabilities"
        [("MaxPullPoints", "2"), ("PauseSupport", "false")],
      .characters "inner", .endElement "Capabilities",
      .startElement "Capabilities" [("Other", "1")]]
      "Capabilities" none true true =
      ["MaxPullPoints=\"2\"", "PauseSupport=\"false\""] :=
  parse_soap_attributes_mode "Capabilities" ("MaxPullPoints", "2")
    [("PauseSupport", "false")] [.characters "lead-in"]
    [.characters "inner", .endElement "Capabilities",
     .startElement "Capabilities" [("Other", "1")]] true (by decide)

/-- Counterexample to C9 as stated: the first matched target element has no
attributes, yet the call neither returns that (empty) attribute set nor
stops scanning — it keeps going and returns the attributes of a child
element instead, with the value in `Debug` quotes. -/
theorem parse_soap_attributes_mode_cex :
    parse_soap [.startElement "t" [], .startElement "c" [("a", "1")],
        .characters "x", .endElement "c", .endElement "t"] "t" none true true =
      ["a=\"1\""] :=
  rfl

/-! ## Transport retry policy -/

/-- C2 (amended): `send` makes at most 4 HTTP POST attempts — the loop
tests `try_times == 5` right after incrementing and before sending, so the
fifth turn breaks without a request.  A timed-out attempt is retried
immediately; when the first four attempts all time out the call returns the
transport-exhausted failure after exactly 4 requests (even if a fifth
attempt would have succeeded); a completed first attempt is returned at
once. -/
theorem send_retry_policy :
    (∀ attempts, (send attempts).2 ≤ 4) ∧
    (∀ attempts, (∀ i ∈ [1, 2, 3, 4], attempts i = AttemptOutcome.timeout) →
      send attempts = (.error .exhausted, 4)) ∧
    (∀ attempts r, attempts 1 = AttemptOutcome.success r →
      send attempts = (.ok r, 1)) := by
  refine ⟨?_, ?_, ?_⟩
  · intro attempts
    cases h1 : attempts 1 <;> cases h2 : attempts 2 <;> cases h3 : attempts 3 <;>
      cases h4 : attempts 4 <;> simp [send, send_go, h1, h2, h3, h4]
  · intro attempts h
    have e1 := h 1 (by decide)
    have e2 := h 2 (by decide)
    have e3 := h 3 (by decide)
    have e4 := h 4 (by decide)
    simp [send, send_go, e1, e2, e3, e4]
  · intro attempts r h
    simp [send, send_go, h]

/-- Counterexample to C2 as stated: with the first four attempts timing out
and a fifth attempt that would succeed, the call still returns the
transport-exhausted error after only 4 issued requests — it never makes a
fifth attempt. -/
theorem send_retry_policy_cex :
    send (fun i => if i == 5 then .success "response" else .timeout) =
      (.error .exhausted, 4) :=
  rfl

/-! ## Discovery: termination, deduplication, substring shadowing -/

theorem discover_step_timeout (pu : String → Option String) (st : DiscoverState) :
    discover_step pu st .timeout = .ok st :=
  rfl

theorem discover_step_seen (pu : String → Option String) (st : DiscoverState)
    (r : Reply) (h : rustContains st.devices_check r.addr = true) :
    discover_step pu st (.reply r) = .ok st := by
  simp [discover_step, h]

theorem discover_step_new (pu : String → Option String) (st : DiscoverState)
    (r : Reply) (x u t sc : String) (xs ts ss : List String)
    (hseen : rustContains st.devices_check r.addr = false)
    (hx : parse_soap r.events "XAddrs" none true false = x :: xs)
    (hu : pu x = some u)
    (ht : parse_soap r.events "Types" none true false = t :: ts)
    (hs : parse_soap r.events "Scopes" none true false = sc :: ss) :
    discover_step pu st (.reply r) =
      .ok ⟨st.devices_found ++ [⟨u, parse_device_type t, rustSplit sc ' '⟩],
           st.devices_check ++ ":" ++ r.addr⟩ := by
  simp [discover_step, hseen, hx, hu, ht, hs]

/-- Receive outcomes that are all timeouts leave the state untouched. -/
theorem run_recvs_timeouts (pu : String → Option String) (l : List RecvOutcome)
    (h : ∀ o ∈ l, o = RecvOutcome.timeout) :
    ∀ st, run_recvs pu l st = .ok st := by
  induction l with
  | nil => intro st; rfl
  | cons o rest ih =>
    intro st
    have ho := h o (by simp)
    have hrest : ∀ o ∈ rest, o = RecvOutcome.timeout := fun o hm => h o (by simp [hm])
    rw [run_recvs, ho, discover_step_timeout]
    exact ih hrest st

/-- Once the accumulated address string contains `A`, further replies from
`A` (and timeouts / receive errors) leave the state untouched. -/
theorem run_recvs_all_seen (pu : String → Option String) (A : String)
    (l : List RecvOutcome)
    (h : ∀ o ∈ l, o = RecvOutcome.timeout ∨ recvAddr o = some A) :
    ∀ st, rustContains st.devices_check A = true → run_recvs pu l st = .ok st := by
  induction l with
  | nil => intro st _; rfl
  | cons o rest ih =>
    intro st hA
    have hrest : ∀ o ∈ rest, o = RecvOutcome.timeout ∨ recvAddr o = some A :=
      fun o hm => h o (by simp [hm])
    rcases h o (by simp) with ho | ho
    · rw [run_recvs, ho, discover_step_timeout]
      exact ih hrest st hA
    · cases o with
      | timeout => rw [run_recvs, discover_step_timeout]; exact ih hrest st hA
      | recvError => simp [recvAddr] at ho
      | reply r =>
        have haddr : r.addr = A := by simpa [recvAddr] using ho
        rw [run_recvs, discover_step_seen pu st r (haddr ▸ hA)]
        exact ih hrest st hA

/-- The needle is contained in any accumulation that appended it last. -/
theorem rustContains_append_self (x A : String) :
    rustContains (x ++ ":" ++ A) A = true := by
  unfold rustContains
  rw [decide_eq_true_eq, String.data_append]
  exact (List.suffix_append (x ++ ":").data A.data).isInfix

theorem rustContains_empty (A : String) (h : A ≠ "") :
    rustContains "" A = false := by
  unfold rustContains
  rw [decide_eq_false_iff_not]
  intro hinf
  have h1 : A.data <:+: ([] : List Char) := hinf
  have h2 : A.data = [] := by simpa using h1
  apply h
  apply String.ext
  rw [h2]

/-- One decided step folds away. -/
theorem run_recvs_cons_ok (pu : String → Option String) (o : RecvOutcome)
    (rest : List RecvOutcome) (st st' : DiscoverState)
    (h : discover_step pu st o = .ok st') :
    run_recvs pu (o :: rest) st = run_recvs pu rest st' := by
  rw [run_recvs, h]

theorem string_empty_append (s : String) : "" ++ s = s := by
  apply String.ext
  rw [String.data_append]
  rfl

/-- C3: `discover` never returns an empty device list, and when the whole
receive budget (2 broadcast rounds × 5 bounded receive attempts) yields no
reply it fails with the no-devices-found outcome (the source's
`panic!("… Unable to find any devices.")`). -/
theorem discover_empty_fails :
    (∀ (pu : String → Option String) outcomes,
      discover pu outcomes ≠ .ok []) ∧
    (∀ (pu : String → Option String) outcomes,
      (∀ i ∈ List.range 10, outcomes i = RecvOutcome.timeout) →
      discover pu outcomes = .error .noDevicesFound) := by
  constructor
  · intro pu outcomes h
    unfold discover at h
    cases hr : run_recvs pu ((List.range 10).map outcomes) ⟨[], ""⟩ with
    | error e => rw [hr] at h; exact absurd h (by simp)
    | ok st =>
      rw [hr] at h
      by_cases he : st.devices_found.isEmpty
      · simp [he] at h
      · simp [he] at h
        exact he (by simp [h])
  · intro pu outcomes h
    have hall : ∀ o ∈ (List.range 10).map outcomes, o = RecvOutcome.timeout := by
      intro o ho
      obtain ⟨i, hi, rfl⟩ := List.mem_map.mp ho
      exact h i hi
    unfold discover
    rw [run_recvs_timeouts pu _ hall]
    rfl

/-- C4 (amended): replies are deduplicated by textual containment of the
sender's address in the accumulated address string, so a second (or any
later) reply from an already-recorded address is always ignored: when every
reply of the call comes from the one address `A`, the device list holds
exactly one entry, built from the first reply's buffer.  (Because the check
is substring containment rather than equality, an address merely *shadowed*
by the accumulated string can end up with zero entries — see the
counterexample — so "exactly one entry per replying address" does not hold
in general.) -/
theorem discover_dedup_same_address (pu : String → Option String)
    (outcomes : Nat → RecvOutcome) (A : String) (b : List XmlEvent)
    (x u t sc : String) (xs ts ss : List String)
    (h0 : outcomes 0 = .reply ⟨A, b⟩)
    (hrest : ∀ o ∈ [outcomes 1, outcomes 2, outcomes 3, outcomes 4, outcomes 5,
        outcomes 6, outcomes 7, outcomes 8, outcomes 9],
      o = RecvOutcome.timeout ∨ recvAddr o = some A)
    (hA : A ≠ "")
    (hx : parse_soap b "XAddrs" none true false = x :: xs)
    (hu : pu x = some u)
    (ht : parse_soap b "Types" none true false = t :: ts)
    (hs : parse_soap b "Scopes" none true false = sc :: ss) :
    discover pu outcomes = .ok [⟨u, parse_device_type t, rustSplit sc ' '⟩] := by
  unfold discover
  have hmap : (List.range 10).map outcomes =
      outcomes 0 :: [outcomes 1, outcomes 2, outcomes 3, outcomes 4, outcomes 5,
        outcomes 6, outcomes 7, outcomes 8, outcomes 9] := rfl
  have hstep : discover_step pu ⟨[], ""⟩ (outcomes 0) =
      .ok ⟨[⟨u, parse_device_type t, rustSplit sc ' '⟩], "" ++ ":" ++ A⟩ := by
    rw [h0]
    exact discover_step_new pu ⟨[], ""⟩ ⟨A, b⟩ x u t sc xs ts ss
      (rustContains_empty A hA) hx hu ht hs
  rw [hmap, run_recvs_cons_ok pu _ _ _ _ hstep,
    run_recvs_all_seen pu A _ hrest _ (rustContains_append_self "" A)]
  rfl

/-- Witness for C4's theorem: two replies from the same address, the
second built from a different buffer, with timeouts elsewhere; exactly one
device results, built from the first reply. -/
theorem discover_dedup_same_address_witness :
    discover (fun s => some s) (fun i =>
      if i == 0 then .reply ⟨"192.168.1.20:3702",
        [.startElement "XAddrs" [], .characters "http://cam/onvif/device_service", .endElement "XAddrs",
         .startElement "Types" [], .characters "dn:NetworkVideoTransmitter", .endElement "Types",
         .startElement "Scopes" [], .characters "odm a", .endElement "Scopes"]⟩
      else if i == 4 then .reply ⟨"192.168.1.20:3702",
        [.startElement "XAddrs" [], .characters "http://other", .endElement "XAddrs",
         .startElement "Types" [], .characters "dn:Doorbell", .endElement "Types",
         .startElement "Scopes" [], .characters "z", .endElement "Scopes"]⟩
      else .timeout) =
      .ok [⟨"http://cam/onvif/device_service", DeviceTypes.camera, ["odm", "a"]⟩] :=
  discover_dedup_same_address (fun s => some s) _ "192.168.1.20:3702"
    [.startElement "XAddrs" [], .characters "http://cam/onvif/device_service", .endElement "XAddrs",
     .startElement "Types" [], .characters "dn:NetworkVideoTransmitter", .endElement "Types",
     .startElement "Scopes" [], .characters "odm a", .endElement "Scopes"]
    "http://cam/onvif/device_service" "http://cam/onvif/device_service"
    "dn:NetworkVideoTransmitter" "odm a" [] [] []
    rfl (by decide) (by decide) rfl rfl rfl rfl

/-- Counterexample to C4 as stated: two replies arrive from address
`1.2.3.4:567` after one reply from `11.2.3.4:5678`; because
`"1.2.3.4:567"` is a substring of the accumulated `":11.2.3.4:5678"`, the
duplicated address ends with zero entries — not exactly one — and the
device list holds only the first sender's device. -/
theorem discover_dedup_same_address_cex :
    discover (fun s => some s) (fun i =>
      if i == 0 then .reply ⟨"11.2.3.4:5678",
        [.startElement "XAddrs" [], .characters "http://b", .endElement "XAddrs",
         .startElement "Types" [], .characters "dn:NetworkVideoTransmitter", .endElement "Types",
         .startElement "Scopes" [], .characters "sb", .endElement "Scopes"]⟩
      else if i == 1 then .reply ⟨"1.2.3.4:567",
        [.startElement "XAddrs" [], .characters "http://a", .endElement "XAddrs",
         .startElement "Types" [], .characters "dn:NetworkVideoTransmitter", .endElement "Types",
         .startElement "Scopes" [], .characters "sa", .endElement "Scopes"]⟩
      else if i == 2 then .reply ⟨"1.2.3.4:567",
        [.startElement "XAddrs" [], .characters "http://a", .endElement "XAddrs",
         .startElement "Types" [], .characters "dn:NetworkVideoTransmitter", .endElement "Types",
         .startElement "Scopes" [], .characters "sa", .endElement "Scopes"]⟩
      else .timeout) =
      .ok [⟨"http://b", DeviceTypes.camera, ["sb"]⟩] := by
  decide

/-- C10: the seen-address check is substring containment against the
colon-joined accumulation, so a reply from a never-seen address is dropped
whenever its string occurs inside the accumulation: here the second sender's
address is contained in `":" ++ a1` and no device is built for it. -/
theorem discover_shadowed_address_dropped (pu : String → Option String)
    (outcomes : Nat → RecvOutcome) (a1 a2 : String) (b1 b2 : List XmlEvent)
    (x u t sc : String) (xs ts ss : List String)
    (h0 : outcomes 0 = .reply ⟨a1, b1⟩)
    (h1 : outcomes 1 = .reply ⟨a2, b2⟩)
    (hrest : ∀ o ∈ [outcomes 2, outcomes 3, outcomes 4, outcomes 5,
        outcomes 6, outcomes 7, outcomes 8, outcomes 9],
      o = RecvOutcome.timeout)
    (ha1 : a1 ≠ "")
    (hshadow : rustContains (":" ++ a1) a2 = true)
    (hx : parse_soap b1 "XAddrs" none true false = x :: xs)
    (hu : pu x = some u)
    (ht : parse_soap b1 "Types" none true false = t :: ts)
    (hs : parse_soap b1 "Scopes" none true false = sc :: ss) :
    discover pu outcomes = .ok [⟨u, parse_device_type t, rustSplit sc ' '⟩] := by
  unfold discover
  have hmap : (List.range 10).map outcomes =
      outcomes 0 :: outcomes 1 :: [outcomes 2, outcomes 3, outcomes 4, outcomes 5,
        outcomes 6, outcomes 7, outcomes 8, outcomes 9] := rfl
  have hstep : discover_step pu ⟨[], ""⟩ (outcomes 0) =
      .ok ⟨[⟨u, parse_device_type t, rustSplit sc ' '⟩], "" ++ ":" ++ a1⟩ := by
    rw [h0]
    exact discover_step_new pu ⟨[], ""⟩ ⟨a1, b1⟩ x u t sc xs ts ss
      (rustContains_empty a1 ha1) hx hu ht hs
  have hshadow' : rustContains ("" ++ ":" ++ a1) a2 = true := by
    rw [string_empty_append]
    exact hshadow
  have hstep2 : discover_step pu
      ⟨[⟨u, parse_device_type t, rustSplit sc ' '⟩], "" ++ ":" ++ a1⟩
      (outcomes 1) =
      .ok ⟨[⟨u, parse_device_type t, rustSplit sc ' '⟩], "" ++ ":" ++ a1⟩ := by
    rw [h1]
    exact discover_step_seen pu _ ⟨a2, b2⟩ hshadow'
  rw [hmap, run_recvs_cons_ok pu _ _ _ _ hstep,
    run_recvs_cons_ok pu _ _ _ _ hstep2,
    run_recvs_timeouts pu _ hrest]
  rfl

/-- Witness for C10's theorem: a reply from `11.2.3.4:5678` followed by a
reply from the fresh address `1.2.3.4:567`, which is textually contained in
the accumulated `":11.2.3.4:5678"` and therefore dropped. -/
theorem discover_shadowed_address_dropped_witness :
    discover (fun s => some s) (fun i =>
      if i == 0 then .reply ⟨"11.2.3.4:5678",
        [.startElement "XAddrs" [], .characters "http://b", .endElement "XAddrs",
         .startElement "Types" [], .characters "dn:NetworkVideoTransmitter", .endElement "Types",
         .startElement "Scopes" [], .characters "sb", .endElement "Scopes"]⟩
      else if i == 1 then .reply ⟨"1.2.3.4:567",
        [.startElement "XAddrs" [], .characters "http://a", .endElement "XAddrs",
         .startElement "Types" [], .characters "dn:Doorbell", .endElement "Types",
         .startElement "Scopes" [], .characters "sa", .endElement "Scopes"]⟩
      else .timeout) =
      .ok [⟨"http://b", DeviceTypes.camera, ["sb"]⟩] :=
  discover_shadowed_address_dropped (fun s => some s) _
    "11.2.3.4:5678" "1.2.3.4:567"
    [.startElement "XAddrs" [], .characters "http://b", .endElement "XAddrs",
     .startElement "Types" [], .characters "dn:NetworkVideoTransmitter", .endElement "Types",
     .startElement "Scopes" [], .characters "sb", .endElement "Scopes"]
    [.startElement "XAddrs" [], .characters "http://a", .endElement "XAddrs",
     .startElement "Types" [], .characters "dn:Doorbell", .endElement "Types",
     .startElement "Scopes" [], .characters "sa", .endElement "Scopes"]
    "http://b" "http://b" "dn:NetworkVideoTransmitter" "sb" [] [] []
    rfl rfl (by decide) (by decide) (by decide) rfl rfl rfl rfl

/-! ## Services classification -/

theorem except_error_bind {e a b : Type} (err : e) (f : a → Except e b) :
    (Except.error err >>= f) = Except.error err :=
  rfl

theorem except_ok_bind {e a b : Type} (v : a) (f : a → Except e b) :
    (Except.ok v >>= f) = f v :=
  rfl

/-- C6: for the XAddr list of the spec's test vector the Services record
gets `media` and `event` populated with the matching URLs and everything
else absent — the device-service self-reference is silently skipped; and an
XAddr matching no known path fragment leaves the record unchanged rather
than failing the stage. -/
theorem set_services_classification :
    set_services
      [.startElement "XAddr" [], .characters "http://cam/onvif/device_service", .endElement "XAddr",
       .startElement "XAddr" [], .characters "http://cam/onvif/media_service", .endElement "XAddr",
       .startElement "XAddr" [], .characters "http://cam/onvif/events_service", .endElement "XAddr"] =
      { analytics := none, event := some "http://cam/onvif/events_service",
        io := none, imaging := none,
        media := some "http://cam/onvif/media_service", media2 := none,
        ptz := none } ∧
    (∀ result : Services, classify_service result "http://cam/onvif/xyz" = result) := by
  constructor
  · decide
  · intro result
    simp +decide [classify_service]

/-! ## Pipeline degradation on a GetProfiles response missing Height -/

/-- A GetProfiles response whose `Height` extraction comes back empty makes
`set_profiles` fail: either `width[0]` / `height[0]` panics on an empty
extraction or `.parse().unwrap()` panics first. -/
theorem set_profiles_missing_height (response : List XmlEvent)
    (h : parse_soap response "Height" none true false = []) :
    ∃ e, set_profiles response = .error e := by
  unfold set_profiles
  rw [h]
  cases hw : parse_soap response "Width" none true false with
  | nil =>
    exact ⟨.indexPanic, by
      simp [first_or_panic, hw, except_error_bind, except_ok_bind]⟩
  | cons w ws =>
    cases hn : rust_parse_u32 w with
    | none =>
      exact ⟨.parsePanic, by
        simp [first_or_panic, parse_u32_or_panic, hw, hn,
          except_error_bind, except_ok_bind]⟩
    | some n =>
      exact ⟨.indexPanic, by
        simp [first_or_panic, parse_u32_or_panic, hw, hn,
          except_error_bind, except_ok_bind]⟩

/-- C5 (amended): a GetProfiles response that parses but lacks the `Height`
element makes the profiles stage fail with a panic (modelled as a stage
error) instead of producing a degraded record — `videoWidth` and
`videoHeight` live in the single paired field `video_dim`, which cannot be
half-populated — and `build_all` propagates the failure, so the subsequent
GetStreamUri stage is never entered. -/
theorem build_all_missing_height (pu : String → Option String)
    (resp : CameraResponses) (c : Camera) (caps : Capabilities)
    (di : DeviceInfo)
    (hcaps : set_capabilities pu resp.capabilities = .ok caps)
    (hdi : set_device_info resp.device_info = .ok di)
    (hh : parse_soap resp.profiles "Height" none true false = []) :
    (build_all pu resp c).1 = [Stage.capabilities, Stage.deviceInfo, Stage.profiles] ∧
    ∃ e, (build_all pu resp c).2 = .error e := by
  obtain ⟨e, he⟩ := set_profiles_missing_height resp.profiles hh
  simp only [build_all, hcaps, hdi, he]
  exact ⟨rfl, e, rfl⟩

/-- A well-formed GetCapabilities response for the C5 witness. -/
def capsRespW : List XmlEvent :=
  [.startElement "Media" [], .startElement "XAddr" [],
   .characters "http://cam/onvif/media", .endElement "XAddr", .endElement "Media",
   .startElement "Events" [], .startElement "XAddr" [],
   .characters "http://cam/onvif/events", .endElement "XAddr", .endElement "Events",
   .startElement "Analytics" [], .startElement "XAddr" [],
   .characters "http://cam/onvif/analytics", .endElement "XAddr", .endElement "Analytics",
   .startElement "PTZ" [], .startElement "XAddr" [],
   .characters "http://cam/onvif/ptz", .endElement "XAddr", .endElement "PTZ",
   .startElement "Imaging" [], .startElement "XAddr" [],
   .characters "http://cam/onvif/imaging", .endElement "XAddr", .endElement "Imaging"]

/-- A well-formed GetDeviceInformation response for the C5 witness. -/
def diRespW : List XmlEvent :=
  [.startElement "FirmwareVersion" [], .characters "1.0", .endElement "FirmwareVersion",
   .startElement "SerialNumber" [], .characters "SN1", .endElement "SerialNumber",
   .startElement "HardwareId" [], .characters "HW1", .endElement "HardwareId",
   .startElement "Model" [], .characters "M1", .endElement "Model",
   .startElement "Manufacturer" [], .characters "ACME", .endElement "Manufacturer"]

/-- Responses for the C5 witness: well-formed everywhere, except that the
GetProfiles response lacks a `Height` element. -/
def respW : CameraResponses :=
  { capabilities := capsRespW, device_info := diRespW,
    profiles :=
      [.startElement "Width" [], .characters "1920", .endElement "Width",
       .startElement "VideoEncoderConfiguration" [], .startElement "Encoding" [],
       .characters "H264", .endElement "Encoding", .endElement "VideoEncoderConfiguration",
       .startElement "H264Profile" [], .characters "Main", .endElement "H264Profile"],
    stream := [.startElement "Uri" [], .characters "rtsp://cam/live", .endElement "Uri"],
    services := [] }

/-- Witness for C5's theorem: with well-formed capabilities and device-info
responses and a profiles response missing `Height`, the pipeline stops at
the profiles stage and never enters the stream-URI stage. -/
theorem build_all_missing_height_witness :
    (build_all (fun s => some s) respW
      (Camera.new ⟨"http://cam/onvif/device_service", .camera, []⟩)).1 =
      [Stage.capabilities, Stage.deviceInfo, Stage.profiles] ∧
    ∃ e, (build_all (fun s => some s) respW
      (Camera.new ⟨"http://cam/onvif/device_service", .camera, []⟩)).2 = .error e :=
  build_all_missing_height (fun s => some s) respW
    (Camera.new ⟨"http://cam/onvif/device_service", .camera, []⟩)
    ⟨some "http://cam/onvif/media", some "http://cam/onvif/events",
     some "http://cam/onvif/analytics", some "http://cam/onvif/ptz",
     some "http://cam/onvif/imaging"⟩
    ⟨some "1.0", some "SN1", some "HW1", some "M1", some "ACME"⟩
    (by decide) (by decide) (by decide)

/-- Counterexample to C5 as stated: a well-formed GetProfiles response with
`Width` 1920 and video/audio encodings but no `Height` element does not
yield a profile record at all — the stage returns the index-out-of-bounds
panic instead of a degraded record without error. -/
theorem build_all_missing_height_cex :
    set_profiles
      [.startElement "Width" [], .characters "1920", .endElement "Width",
       .startElement "VideoEncoderConfiguration" [], .startElement "Encoding" [],
       .characters "H264", .endElement "Encoding", .endElement "VideoEncoderConfiguration",
       .startElement "AudioEncoderConfiguration" [], .startElement "Encoding" [],
       .characters "AAC", .endElement "Encoding", .endElement "AudioEncoderConfiguration",
       .startElement "H264Profile" [], .characters "Main", .endElement "H264Profile"] =
      .error .indexPanic := by
  decide

/-! ## Registry round trip -/

theorem str_append_assoc (a b c : String) : a ++ b ++ c = a ++ (b ++ c) := by
  apply String.ext
  simp [String.data_append]

theorem str_append_empty (a : String) : a ++ "" = a := by
  apply String.ext
  rw [String.data_append]
  show a.data ++ [] = a.data
  simp

/-- The file contents `file_save` accumulates, line by line. -/
def saveLines : List ClientDevice → String
  | [] => ""
  | d :: ds => device_line d ++ "\n" ++ saveLines ds

theorem foldl_saveLines (l : List ClientDevice) :
    ∀ c, l.foldl (fun contents d => contents ++ device_line d ++ "\n") c =
      c ++ saveLines l := by
  induction l with
  | nil => intro c; exact (str_append_empty c).symm
  | cons d ds ih =>
    intro c
    rw [List.foldl_cons, ih]
    apply String.ext
    simp [saveLines, String.data_append, List.append_assoc]

theorem splitOnChar_ne_nil (sep : Char) (x : List Char) :
    splitOnChar sep x ≠ [] := by
  cases x with
  | nil => simp [splitOnChar]
  | cons a l =>
    rw [splitOnChar]
    split
    · simp
    · split <;> simp

theorem splitOnChar_no_sep (sep : Char) (x : List Char) (h : sep ∉ x) :
    splitOnChar sep x = [x] := by
  induction x with
  | nil => rfl
  | cons a l ih =>
    simp only [List.mem_cons, not_or] at h
    obtain ⟨hsa, hsl⟩ := h
    rw [splitOnChar, if_neg (fun e => hsa e.symm), ih hsl]

theorem splitOnChar_append_sep (sep : Char) (x r : List Char) (h : sep ∉ x) :
    splitOnChar sep (x ++ sep :: r) = x :: splitOnChar sep r := by
  induction x with
  | nil => simp [splitOnChar]
  | cons a l ih =>
    simp only [List.mem_cons, not_or] at h
    obtain ⟨hsa, hsl⟩ := h
    rw [List.cons_append, splitOnChar, if_neg (fun e => hsa e.symm), ih hsl]

theorem saveLines_cons_data (d : ClientDevice) (ds : List ClientDevice) :
    (saveLines (d :: ds)).data =
      (device_line d).data ++ '\n' :: (saveLines ds).data := by
  show ((device_line d ++ "\n") ++ saveLines ds).data = _
  rw [String.data_append, String.data_append, List.append_assoc]
  rfl

theorem split_saveLines (l : List ClientDevice)
    (h : ∀ d ∈ l, ('\n' : Char) ∉ (device_line d).data) :
    splitOnChar '\n' (saveLines l).data =
      l.map (fun d => (device_line d).data) ++ [[]] := by
  induction l with
  | nil => rfl
  | cons d ds ih =>
    have hd := h d (by simp)
    have hds : ∀ d' ∈ ds, ('\n' : Char) ∉ (device_line d').data :=
      fun d' hm => h d' (by simp [hm])
    rw [saveLines_cons_data, splitOnChar_append_sep '\n' _ _ hd, ih hds]
    simp

theorem rustLines_saveLines (l : List ClientDevice)
    (h : ∀ d ∈ l, ('\n' : Char) ∉ (device_line d).data ∧
      (device_line d).data.getLast? ≠ some '\r') :
    rustLines (saveLines l) = l.map device_line := by
  simp only [rustLines]
  rw [split_saveLines l (fun d hm => (h d hm).1)]
  have h1 : (l.map (fun d => (device_line d).data) ++ [[]]).getLast? = some [] :=
    List.getLast?_concat _
  rw [if_pos h1, List.dropLast_concat, List.map_map]
  apply List.map_congr_left
  intro d hd
  simp only [Function.comp]
  rw [if_neg ((h d hd).2)]

theorem rustSplit_line (rtsp url : String)
    (h1 : (' ' : Char) ∉ rtsp.data) (h2 : (' ' : Char) ∉ url.data) :
    rustSplit ("IP: " ++ rtsp ++ " ONVIF: " ++ url) ' ' =
      ["IP:", rtsp, "ONVIF:", url] := by
  unfold rustSplit
  have hdata : ("IP: " ++ rtsp ++ " ONVIF: " ++ url).data =
      ['I', 'P', ':'] ++ ' ' :: (rtsp.data ++ ' ' ::
        (['O', 'N', 'V', 'I', 'F', ':'] ++ ' ' :: url.data)) := by
    rw [String.data_append, String.data_append, String.data_append,
      List.append_assoc, List.append_assoc]
    rfl
  rw [hdata, splitOnChar_append_sep ' ' _ _ (by decide),
    splitOnChar_append_sep ' ' _ _ h1,
    splitOnChar_append_sep ' ' _ _ (by decide),
    splitOnChar_no_sep ' ' _ h2]
  rfl

theorem except_pure {e a : Type} (v : a) : (pure v : Except e a) = Except.ok v :=
  rfl

/-- The device reconstructed by `file_load` from a saved device: only
`url_rtsp` and `url_onvif` survive, everything else resets to
`Device::new()` defaults. -/
def reload (d : ClientDevice) : ClientDevice :=
  { ClientDevice.new with url_rtsp := d.url_rtsp, url_onvif := d.url_onvif }

theorem load_line_device (pu : String → Option String) (d : ClientDevice)
    (hon1 : (' ' : Char) ∉ d.url_onvif.data)
    (hon2 : pu d.url_onvif = some d.url_onvif)
    (hrt : match d.url_rtsp with
      | none => True
      | some u => u.data ≠ [] ∧ (' ' : Char) ∉ u.data ∧ pu u = some u) :
    load_line pu (device_line d) = .ok (reload d) := by
  cases hcase : d.url_rtsp with
  | none =>
    have hline : device_line d = "IP: " ++ "" ++ " ONVIF: " ++ d.url_onvif := by
      simp [device_line, hcase]
    rw [load_line, hline, rustSplit_line "" d.url_onvif (by decide) hon1]
    simp +decide [List.enum, List.enumFrom, List.filter_cons, hon2,
      except_ok_bind, except_pure, reload, hcase]
  | some u =>
    rw [hcase] at hrt
    obtain ⟨hu0, hu1, hu2⟩ := hrt
    have hline : device_line d = "IP: " ++ u ++ " ONVIF: " ++ d.url_onvif := by
      simp [device_line, hcase]
    have hne : u.data.isEmpty = false := by
      cases hd : u.data with
      | nil => exact absurd hd hu0
      | cons _ _ => rfl
    rw [load_line, hline, rustSplit_line u d.url_onvif hu1 hon1]
    simp +decide [List.enum, List.enumFrom, List.filter_cons, hne, hu0, hu2,
      hon2, except_ok_bind, except_pure, reload, hcase]

theorem load_lines_saved (pu : String → Option String) (l : List ClientDevice)
    (h : ∀ d ∈ l, load_line pu (device_line d) = .ok (reload d)) :
    load_lines pu (l.map device_line) = .ok (l.map reload) := by
  induction l with
  | nil => rfl
  | cons d ds ih =>
    have hd := h d (by simp)
    have hds : ∀ d' ∈ ds, load_line pu (device_line d') = .ok (reload d') :=
      fun d' hm => h d' (by simp [hm])
    rw [List.map_cons, load_lines, hd, ih hds, List.map_cons]

/-- URL strings as the `url::Url` collaborator serializes them: nonempty and
free of spaces, newlines and carriage returns (a serialized URL
percent-encodes whitespace). -/
def urlOk (s : String) : Bool :=
  !s.data.isEmpty && !s.data.contains ' ' && !s.data.contains '\n' &&
    !s.data.contains '\r'

/-- The side conditions of the round trip for one device: both URLs are
serialized-URL-shaped and reparse to themselves. -/
def deviceOk (pu : String → Option String) (d : ClientDevice) : Bool :=
  urlOk d.url_onvif && (pu d.url_onvif == some d.url_onvif) &&
    (match d.url_rtsp with
     | none => true
     | some u => urlOk u && (pu u == some u))

theorem not_mem_of_contains_eq_false {a : Char} {l : List Char}
    (h : l.contains a = false) : a ∉ l := by
  intro hm
  rw [show l.contains a = List.elem a l from rfl, List.elem_iff.mpr hm] at h
  cases h

theorem urlOk_spec (s : String) (h : urlOk s = true) :
    s.data ≠ [] ∧ (' ' : Char) ∉ s.data ∧ ('\n' : Char) ∉ s.data ∧
      ('\r' : Char) ∉ s.data := by
  simp only [urlOk, Bool.and_eq_true, Bool.not_eq_true'] at h
  obtain ⟨⟨⟨h0, h1⟩, h2⟩, h3⟩ := h
  refine ⟨?_, not_mem_of_contains_eq_false h1,
    not_mem_of_contains_eq_false h2, not_mem_of_contains_eq_false h3⟩
  intro he
  rw [he] at h0
  cases h0

/-- The two character-level facts `rustLines_saveLines` needs about one
saved line, derived from the URL side conditions. -/
theorem device_line_clean (pu : String → Option String) (d : ClientDevice)
    (h : deviceOk pu d = true) :
    ('\n' : Char) ∉ (device_line d).data ∧
      (device_line d).data.getLast? ≠ some '\r' := by
  simp only [deviceOk, Bool.and_eq_true] at h
  obtain ⟨⟨hon, _⟩, hrt⟩ := h
  obtain ⟨_, _, honn, honr⟩ := urlOk_spec _ hon
  have hrtsp : ('\n' : Char) ∉ (match d.url_rtsp with
      | some u => u
      | none => "").data ∧ ('\r' : Char) ∉ (match d.url_rtsp with
      | some u => u
      | none => "").data := by
    cases hcase : d.url_rtsp with
    | none => exact ⟨by simp, by simp⟩
    | some u =>
      rw [hcase] at hrt
      simp only [Bool.and_eq_true] at hrt
      obtain ⟨hu, _⟩ := hrt
      obtain ⟨_, _, hn, hr⟩ := urlOk_spec _ hu
      exact ⟨hn, hr⟩
  have hdata : (device_line d).data =
      (['I', 'P', ':', ' '] ++ (match d.url_rtsp with
        | some u => u
        | none => "").data) ++
      ((' ' :: ['O', 'N', 'V', 'I', 'F', ':', ' ']) ++ d.url_onvif.data) := by
    show (("IP: " ++ _ ++ " ONVIF: ") ++ d.url_onvif).data = _
    rw [String.data_append, String.data_append, String.data_append]
    simp [List.append_assoc]
  constructor
  · rw [hdata]
    simp only [List.mem_append, List.mem_cons]
    rintro ((h | h) | (h | h))
    · simp at h
    · exact hrtsp.1 h
    · rcases h with h | h
      · cases h
      · simp at h
    · exact honn h
  · intro hlast
    have hmem := List.mem_of_getLast?_eq_some hlast
    rw [hdata] at hmem
    simp only [List.mem_append, List.mem_cons] at hmem
    rcases hmem with (h | h) | (h | h)
    · simp at h
    · exact hrtsp.2 h
    · rcases h with h | h
      · cases h
      · simp at h
    · exact honr h

/-- C7: saving any non-empty device list and loading the resulting file
reconstructs a list of the same length in which each device keeps its
`url_onvif` and its `url_rtsp` — including the absence of the latter —
while every other field resets to the `Device::new()` defaults.  The URL
side conditions hold for any string the `url::Url` collaborator serializes,
and `pu u = some u` is its parse/serialize round-trip property. -/
theorem registry_round_trip (pu : String → Option String)
    (devices : List ClientDevice) (hne : devices ≠ [])
    (hok : ∀ d ∈ devices, deviceOk pu d = true) :
    ∃ contents, file_save devices = .ok contents ∧
      file_load pu contents = .ok (devices.map reload) := by
  obtain ⟨d0, ds, rfl⟩ := List.exists_cons_of_ne_nil hne
  refine ⟨saveLines (d0 :: ds), ?_, ?_⟩
  · rw [file_save, if_neg (by simp)]
    rw [foldl_saveLines]
    rw [show ("" ++ saveLines (d0 :: ds)) = saveLines (d0 :: ds) from
      string_empty_append _]
  · have hclean := fun d hm => device_line_clean pu d (hok d hm)
    have hlines := rustLines_saveLines (d0 :: ds) hclean
    have hhead : ∃ tail, (saveLines (d0 :: ds)).data = 'I' :: 'P' :: tail := by
      rw [saveLines_cons_data]
      refine ⟨(':' :: ' ' :: (match d0.url_rtsp with
        | some u => u
        | none => "").data ++ (' ' :: 'O' :: 'N' :: 'V' :: 'I' :: 'F' :: ':' ::
          ' ' :: d0.url_onvif.data)) ++ '\n' :: (saveLines ds).data, ?_⟩
      have : (device_line d0).data = 'I' :: 'P' :: ':' :: ' ' ::
          ((match d0.url_rtsp with
            | some u => u
            | none => "").data ++ (' ' :: 'O' :: 'N' :: 'V' :: 'I' :: 'F' ::
              ':' :: ' ' :: d0.url_onvif.data)) := by
        show (("IP: " ++ _ ++ " ONVIF: ") ++ d0.url_onvif).data = _
        rw [String.data_append, String.data_append, String.data_append,
          List.append_assoc, List.append_assoc]
        rfl
      rw [this]
      simp [List.append_assoc]
    obtain ⟨tail, htail⟩ := hhead
    rw [file_load]
    rw [if_neg (by
      rw [show (saveLines (d0 :: ds)).length = (saveLines (d0 :: ds)).data.length
        from rfl, htail]
      simp)]
    rw [if_neg (by
      have hinf : ("IP".data : List Char) <:+: (saveLines (d0 :: ds)).data := by
        rw [htail]
        exact ⟨[], tail, rfl⟩
      rw [show rustContains (saveLines (d0 :: ds)) "IP" =
        decide (("IP".data : List Char) <:+: (saveLines (d0 :: ds)).data) from rfl]
      rw [decide_eq_true hinf]
      simp)]
    rw [hlines]
    have hload : ∀ d ∈ d0 :: ds, load_line pu (device_line d) = .ok (reload d) := by
      intro d hm
      have h := hok d hm
      simp only [deviceOk, Bool.and_eq_true, beq_iff_eq] at h
      obtain ⟨⟨hon, hon2⟩, hrt⟩ := h
      obtain ⟨_, hsp, _, _⟩ := urlOk_spec _ hon
      apply load_line_device pu d hsp hon2
      cases hcase : d.url_rtsp with
      | none => trivial
      | some u =>
        rw [hcase] at hrt
        simp only [Bool.and_eq_true, beq_iff_eq] at hrt
        obtain ⟨hu, hu2⟩ := hrt
        obtain ⟨hu0, hu1, _, _⟩ := urlOk_spec _ hu
        exact ⟨hu0, hu1, hu2⟩
    rw [load_lines_saved pu _ hload]
    simp

/-- The two devices of the spec's registry test vector: one holding a
stream URI, one without. -/
def regDevicesW : List ClientDevice :=
  [{ ClientDevice.new with
      url_onvif := "http://cam1/onvif/device_service",
      url_rtsp := some "rtsp://cam1/live" },
   { ClientDevice.new with
      url_onvif := "http://cam2/onvif/device_service" }]

/-- Witness for C7's theorem: saving the two devices and loading the file
back reconstructs both, the stream URI kept on the first and still absent
on the second. -/
theorem registry_round_trip_witness :
    ∃ contents, file_save regDevicesW = .ok contents ∧
      file_load (fun s => some s) contents = .ok (regDevicesW.map reload) :=
  registry_round_trip (fun s => some s) regDevicesW
    (by unfold regDevicesW; decide)
    (by unfold regDevicesW; decide)

end OnvifCam
